import Mathlib

/-!
Verification of the tool-calling orchestration loop of the mcp repository.

The development shallowly embeds, straight from the Python sources:
* `workflow/workflow_function_calling_agent.py` — the `FunctionCallingAgent`
  workflow (`prepare_chat_history`, `handle_llm_input`, `handle_tool_calls`)
  and the surrounding REPL `main`;
* `mcp-client/client.py` — the Anthropic-backed `MCPClient`
  (`process_query`, `chat_loop`);
* `client_agent_llama.py` — `handle_user_message`;
* `client_llama.py` — its REPL `main`.

Python exceptions are modelled with `Except PyErr`; mutation is modelled by
explicit state passing.  Machine-level details (async scheduling, network
transport) are outside the embedding; the control flow, branch structure and
string contents follow the sources line by line.
-/

/-- Python exceptions that the embedded code can raise. -/
inductive PyErr where
  /-- `AttributeError` — attribute access on an object lacking it
      (in particular on `None`). -/
  | attributeError (attr : String)
  /-- `NameError` / `UnboundLocalError` — a local variable read before any
      assignment ran. -/
  | nameError (var : String)
  /-- `IndexError` — sequence index out of range. -/
  | indexError (what : String)
  /-- Any exception raised by a tool body (`except Exception as e` target). -/
  | toolError (msg : String)
  deriving Repr, DecidableEq

/-- `str(e)` as used by the f-string `f"Encountered error in tool call: {e}"`. -/
def PyErr.str : PyErr → String
  | .attributeError a => "AttributeError: " ++ a
  | .nameError v => "NameError: " ++ v
  | .indexError w => "IndexError: " ++ w
  | .toolError m => m

/-- Python `str.lower()` (ASCII case folding, which covers the tokens the
    sources compare). -/
def pyLower (s : String) : String :=
  String.mk (s.data.map Char.toLower)

/-- Python `str.strip()`: remove leading and trailing whitespace. -/
def pyStrip (s : String) : String :=
  String.mk
    (((s.data.dropWhile Char.isWhitespace).reverse.dropWhile Char.isWhitespace).reverse)

/-- Python `str.startswith(pre)`. -/
def pyStartsWith (s pre : String) : Bool :=
  pre.data.isPrefixOf s.data

/-- Chat roles of `llama_index.core.base.llms.types.ChatMessage`. -/
inductive Role where
  | user
  | assistant
  | tool
  | system
  deriving Repr, DecidableEq

/-- Keyword arguments of a tool call: the Python `tool_kwargs` dict,
    as an association list. -/
abbrev Kwargs := List (String × String)

/-- `ChatMessage` — role, textual content, and the `additional_kwargs`
    entries `tool_call_id` and `name` the workflow attaches to tool
    messages (absent on other messages). -/
structure ChatMessage where
  role : Role
  content : String
  tool_call_id : Option String := none
  name : Option String := none
  deriving Repr, DecidableEq

/-- `llama_index.core.tools.ToolOutput` as used by the workflow: the
    object appended to `sources`, carrying the producing tool's name and
    its textual `content`. -/
structure ToolOutput where
  tool_name : String
  content : String
  deriving Repr, DecidableEq

/-- A tool call extracted from the model response
    (`llm.get_tool_calls_from_response`): `ToolSelection` fields
    `tool_id`, `tool_name`, `tool_kwargs`. -/
structure ToolCall where
  tool_id : String
  tool_name : String
  tool_kwargs : Kwargs
  deriving Repr, DecidableEq

/-- A registered `FunctionTool`: its metadata name and its body.  The body
    returns `Except` — `.error` models the Python function raising. -/
structure Tool where
  name : String
  run : Kwargs → Except PyErr ToolOutput

/-- `tools_by_name = {tool.metadata.get_name(): tool for tool in self.tools}`
    followed by `.get(name)`: a dict comprehension keeps the LAST tool with
    a given name, and `.get` returns `None` when absent. -/
def toolsByName (tools : List Tool) (name : String) : Option Tool :=
  tools.foldl (fun acc t => if t.name == name then some t else acc) none

/-- The `for tool_call in tool_calls` loop body of
    `FunctionCallingAgent.handle_tool_calls` (workflow_function_calling_agent.py
    lines 135–168), threading the local `tool_msgs` accumulator and the
    `sources` list.

    Faithful detail: the source builds
    `additional_kwargs = {"tool_call_id": tool_call.tool_id,
                          "name": tool.metadata.get_name()}`
    BEFORE testing `if not tool:`.  When `tools_by_name.get` returned `None`,
    evaluating `tool.metadata` raises `AttributeError`, so the
    `if not tool:` branch that would append
    `f"Tool {tool_call.tool_name} does not exist"` is unreachable. -/
def runToolLoop (tools : List Tool) :
    List ToolCall → List ChatMessage → List ToolOutput →
    Except PyErr (List ChatMessage × List ToolOutput)
  | [], tool_msgs, sources => .ok (tool_msgs, sources)
  | tool_call :: rest, tool_msgs, sources =>
    match toolsByName tools tool_call.tool_name with
    | none =>
      -- additional_kwargs = {..., "name": tool.metadata.get_name()} with tool = None
      .error (.attributeError "'NoneType' object has no attribute 'metadata'")
    | some tool =>
      -- additional_kwargs is well defined; `if not tool:` is False here
      let kw_id := tool_call.tool_id
      let kw_name := tool.name
      match tool.run tool_call.tool_kwargs with
      | .ok tool_output =>
        runToolLoop tools rest
          (tool_msgs ++ [{ role := .tool, content := tool_output.content,
                           tool_call_id := some kw_id, name := some kw_name }])
          (sources ++ [tool_output])
      | .error e =>
        runToolLoop tools rest
          (tool_msgs ++ [{ role := .tool,
                           content := "Encountered error in tool call: " ++ e.str,
                           tool_call_id := some kw_id, name := some kw_name }])
          sources

/-- `FunctionCallingAgent.handle_tool_calls` (lines 124–179): run the batch
    loop with an empty local `tool_msgs`, then `memory.put(msg)` for each
    message, store `sources`, and return `InputEvent(memory.get())` — here
    the updated memory and sources, from which the next model call is built.
    An exception in the loop escapes the step (nothing is put into memory,
    since `memory.put` only runs after the loop). -/
def handle_tool_calls (tools : List Tool) (tool_calls : List ToolCall)
    (memory : List ChatMessage) (sources : List ToolOutput) :
    Except PyErr (List ChatMessage × List ToolOutput) :=
  match runToolLoop tools tool_calls [] sources with
  | .error e => .error e
  | .ok (tool_msgs, sources') => .ok (memory ++ tool_msgs, sources')

/-- A registry holding only the weather tools of the example server;
    `get_alerts` succeeds on any arguments. -/
def get_alerts : Tool :=
  { name := "get_alerts"
    run := fun _ => .ok { tool_name := "get_alerts"
                          content := "No active alerts for this state." } }

/-- A registered tool whose body raises on every invocation. -/
def brokenTool : Tool :=
  { name := "get_forecast"
    run := fun _ => .error (.toolError "boom") }

/-- The example registry: the two weather tools. -/
def weatherTools : List Tool := [get_alerts, brokenTool]

/-- A call to a name absent from `weatherTools`. -/
def radarCall : ToolCall :=
  { tool_id := "call-1", tool_name := "get_radar", tool_kwargs := [] }

/-- One element of the async response stream of
    `llm.astream_chat_with_tools`: a `ChatResponse` chunk with its `delta`,
    the cumulative `message`, and the tool calls
    `get_tool_calls_from_response` extracts from it
    (`error_on_no_tool_call=False` gives `[]` when there are none). -/
structure ChatResponseChunk where
  delta : String
  message : ChatMessage
  toolCalls : List ToolCall
  deriving Repr, DecidableEq

/-- The value of the loop variable `response` after
    `async for response in response_stream:` — the last yielded chunk, or
    unbound when the stream was empty.  The fold mirrors the loop
    rebinding `response` at each iteration. -/
def streamLast (stream : List ChatResponseChunk) : Option ChatResponseChunk :=
  stream.foldl (fun _ chunk => some chunk) none

/-- The event `handle_llm_input` returns: either the `StopEvent`
    (final response plus a copy of `sources`) or a `ToolCallEvent`,
    together with the memory as updated by the step. -/
inductive StepResult where
  | stop (response : ChatResponseChunk) (sources : List ToolOutput)
         (memory : List ChatMessage)
  | toolCallEv (tool_calls : List ToolCall) (memory : List ChatMessage)
  deriving Repr, DecidableEq

/-- The memory carried by a `StepResult`. -/
def StepResult.memory : StepResult → List ChatMessage
  | .stop _ _ m => m
  | .toolCallEv _ m => m

/-- `FunctionCallingAgent.handle_llm_input` (lines 93–122), after the
    model call: iterate the stream (forwarding each delta to the event
    sink, not modelled — it writes nothing the loop reads back), then use
    the loop variable `response`: put `response.message` into memory,
    extract tool calls, and either stop with `{"response", "sources"}` or
    emit a `ToolCallEvent`.  An empty stream leaves `response` unbound, so
    the first use raises. -/
def handle_llm_input (stream : List ChatResponseChunk)
    (memory : List ChatMessage) (sources : List ToolOutput) :
    Except PyErr StepResult :=
  match streamLast stream with
  | none => .error (.nameError "response")
  | some response =>
    let memory' := memory ++ [response.message]
    let tool_calls := response.toolCalls
    if tool_calls.isEmpty then
      .ok (.stop response sources memory')
    else
      .ok (.toolCallEv tool_calls memory')

/-- `FunctionCallingAgent.prepare_chat_history` (lines 68–91): clear
    `sources`, create memory when the context has none, append the user
    message, and return the chat history.  Output: the new
    (memory, sources) pair; the history sent to the model is the memory. -/
def prepare_chat_history (stored : Option (List ChatMessage))
    (user_input : String) : List ChatMessage × List ToolOutput :=
  let sources : List ToolOutput := []
  let memory := match stored with
    | some m => m
    | none => []
  let memory := memory ++ [{ role := .user, content := user_input }]
  (memory, sources)

/-- Outcome of driving the workflow loop with a bounded number of model
    calls.  `outOfFuel` is an artifact of the embedding: the loop itself
    has no iteration counter, so the driver stops only when its fuel runs
    out, returning the state still in flight. -/
inductive LoopOutcome where
  | finished (response : ChatResponseChunk) (sources : List ToolOutput)
             (memory : List ChatMessage)
  | outOfFuel (memory : List ChatMessage) (sources : List ToolOutput)
  | crashed (e : PyErr)
  deriving Repr, DecidableEq

/-- Whether the loop reached `StopEvent`. -/
def LoopOutcome.isFinished : LoopOutcome → Bool
  | .finished _ _ _ => true
  | _ => false

/-- Whether the loop escaped with an exception. -/
def LoopOutcome.isCrashed : LoopOutcome → Bool
  | .crashed _ => true
  | _ => false

/-- The `sources` list carried by the outcome. -/
def LoopOutcome.srcList : LoopOutcome → List ToolOutput
  | .finished _ s _ => s
  | .outOfFuel _ s => s
  | .crashed _ => []

/-- The workflow's event loop after `prepare_chat_history`:
    `handle_llm_input` on the current history, then either stop, or run
    `handle_tool_calls` and feed the resulting `InputEvent` back into
    `handle_llm_input`.  `llm` maps a chat history to the response stream.
    `fuel` bounds the number of model calls the driver performs; the
    embedded code contains no such bound. -/
def runLoop (llm : List ChatMessage → List ChatResponseChunk)
    (tools : List Tool) :
    Nat → List ChatMessage → List ToolOutput → LoopOutcome
  | 0, memory, sources => .outOfFuel memory sources
  | fuel + 1, memory, sources =>
    match handle_llm_input (llm memory) memory sources with
    | .error e => .crashed e
    | .ok (.stop response sources' memory') => .finished response sources' memory'
    | .ok (.toolCallEv tool_calls memory') =>
      match handle_tool_calls tools tool_calls memory' sources with
      | .error e => .crashed e
      | .ok (memory'', sources'') => runLoop llm tools fuel memory'' sources''

/-! ## The Anthropic-backed client (`mcp-client/client.py`) -/

/-- One content block of an Anthropic message response:
    a `text` block or a `tool_use` block. -/
inductive Block where
  | text (s : String)
  | toolUse (id : String) (name : String) (input : Kwargs)
  deriving Repr, DecidableEq

/-- A model response: its ordered `content` blocks. -/
structure AResponse where
  content : List Block
  deriving Repr, DecidableEq

/-- A message of the Anthropic conversation list built by `process_query`:
    the initial user query, an assistant message holding accumulated
    content blocks, or the user-role message wrapping one `tool_result`. -/
inductive AMessage where
  | userText (s : String)
  | assistantBlocks (blocks : List Block)
  | toolResultMsg (tool_use_id : String) (content : String)
  deriving Repr, DecidableEq

/-- `True` when the message is the `tool_result` wrapper for `id`. -/
def isResultFor (id : String) : AMessage → Bool
  | .toolResultMsg i _ => i == id
  | _ => false

/-- The mutable locals of `MCPClient.process_query` while it walks the
    initial response's content blocks, plus a log of the
    `session.call_tool` dispatches actually performed. -/
structure PQState where
  final_text : List String
  assistant_message_content : List Block
  messages : List AMessage
  dispatched : List (String × String)
  deriving Repr, DecidableEq

/-- Rendering of `f"[Calling tool {tool_name} with args {tool_args}]"`;
    the dict formatting of `tool_args` is abstracted to a plain join. -/
def callingLine (name : String) (args : Kwargs) : String :=
  "[Calling tool " ++ name ++ " with args " ++
    String.join (args.map fun p => p.1 ++ "=" ++ p.2 ++ ";") ++ "]"

/-- The state updates a `tool_use` block performs before the follow-up
    model call: dispatch the tool, extend `final_text` and the assistant
    content snapshot, then append the assistant message and the
    `tool_result` message to the conversation. -/
def toolUseState (callTool : String → Kwargs → String)
    (id name : String) (input : Kwargs) (s : PQState) : PQState :=
  let result := callTool name input
  let s : PQState := { s with
    dispatched := s.dispatched ++ [(id, name)]
    final_text := s.final_text ++ [callingLine name input]
    assistant_message_content := s.assistant_message_content ++ [.toolUse id name input] }
  { s with
    messages := s.messages ++
      [.assistantBlocks s.assistant_message_content, .toolResultMsg id result] }

/-- The `for content in response.content:` loop of
    `MCPClient.process_query` (client.py lines 108–153).  Python evaluates
    the iterable once, so the loop walks the INITIAL response's blocks even
    though the local `response` is rebound inside; a `tool_use` block
    dispatches the tool, appends the assistant snapshot and the
    `tool_result` message, makes a follow-up model call, and reads
    `response.content[0].text` unconditionally — a non-text first block has
    no `.text` attribute and an empty content list has no index 0.
    Returns the final state together with the exception that escaped, if
    any (side effects already performed are kept, as in Python). -/
def runBlocks (llm : List AMessage → AResponse)
    (callTool : String → Kwargs → String) :
    List Block → PQState → PQState × Option PyErr
  | [], s => (s, none)
  | .text t :: rest, s =>
    runBlocks llm callTool rest
      { s with final_text := s.final_text ++ [t]
               assistant_message_content := s.assistant_message_content ++ [.text t] }
  | .toolUse id name input :: rest, s =>
    let s : PQState := toolUseState callTool id name input s
    let response := llm s.messages
    match response.content with
    | .text t :: _ =>
      runBlocks llm callTool rest { s with final_text := s.final_text ++ [t] }
    | .toolUse _ _ _ :: _ =>
      (s, some (.attributeError "'ToolUseBlock' object has no attribute 'text'"))
    | [] => (s, some (.indexError "list index out of range"))

/-- `MCPClient.process_query` (client.py lines 77–154): one user message,
    the initial model call, then the block loop above.  `llm` stands for
    `self.anthropic.messages.create` as a function of the message list;
    `callTool` for `self.session.call_tool` returning the result content. -/
def process_query (llm : List AMessage → AResponse)
    (callTool : String → Kwargs → String) (query : String) :
    PQState × Option PyErr :=
  let messages := [AMessage.userText query]
  let response := llm messages
  runBlocks llm callTool response.content
    { final_text := [], assistant_message_content := []
      messages := messages, dispatched := [] }

/-- The `(id, name)` pairs of the `tool_use` blocks of a block list, in
    order — the tool calls a response issues. -/
def toolUses (blocks : List Block) : List (String × String) :=
  blocks.filterMap fun
    | .toolUse id name _ => some (id, name)
    | .text _ => none

/-! ## `handle_user_message` of `client_agent_llama.py` -/

/-- One `ToolCallResult` event streamed by the agent run. -/
structure ToolResultEvent where
  tool_name : String
  tool_output : String
  deriving Repr, DecidableEq

/-- The post-processing of `handle_user_message`
    (client_agent_llama.py lines 99–128) applied to the agent's final
    response text.  `synth` stands for `Settings.llm.acomplete`; the
    returned flag records whether that follow-up synthesis call was made.
    No branch raises: a payload-looking response is answered with either
    the synthesis completion or a fixed placeholder. -/
def handle_user_message (final_response : String)
    (tool_results : List ToolResultEvent) (synth : String → String)
    (message_content : String) : String × Bool :=
  if pyStartsWith (pyStrip final_response) "\x7b\"tool_calls\"" then
    if tool_results.length > 0 then
      let tool_result_message := "Tool results: \n" ++
        String.join (tool_results.map fun r =>
          r.tool_name ++ " returned: " ++ r.tool_output ++ "\n")
      let final_prompt :=
        "Based on the following tool results, provide a natural language response to the user's question: '"
          ++ message_content ++ "'\n\n" ++ tool_result_message ++ "\n\nResponse to user:"
      (synth final_prompt, true)
    else
      ("I found information that might help answer your question about: '"
        ++ message_content ++ "', but I need to process it further.", false)
  else
    (final_response, false)

/-! ## REPL loops -/

/-- Terminator test of `MCPClient.chat_loop` (client.py lines 161–166):
    the input line is stripped, and the loop breaks when its lowercase
    form is `quit`. -/
def chatLoopQuits (line : String) : Bool :=
  pyLower (pyStrip line) == "quit"

/-- Terminator test of the workflow `main`
    (workflow_function_calling_agent.py line 216): exact equality with
    `exit`. -/
def workflowMainQuits (line : String) : Bool :=
  line == "exit"

/-- Terminator test of `client_llama.py main` (line 91): the lowercase
    input equals `exit` (no strip). -/
def clientLlamaQuits (line : String) : Bool :=
  pyLower line == "exit"

/-- A REPL `while True:` loop over a scripted sequence of input lines:
    each line is either the terminator (loop breaks, nothing forwarded)
    or becomes one user request.  Returns the forwarded requests in
    order. -/
def replRequests (quits : String → Bool) : List String → List String
  | [] => []
  | line :: rest =>
    if quits line then [] else line :: replRequests quits rest

/-- The requests `MCPClient.chat_loop` forwards to `process_query`: it
    forwards the STRIPPED line. -/
def chat_loop_requests (lines : List String) : List String :=
  replRequests chatLoopQuits (lines.map pyStrip)

/-- The requests the workflow `main` forwards to `handle_user_message`. -/
def workflow_main_requests (lines : List String) : List String :=
  replRequests workflowMainQuits lines

/-- The requests `client_llama.py main` forwards to `process_query`. -/
def client_llama_requests (lines : List String) : List String :=
  replRequests clientLlamaQuits lines

/-! ## Concrete instances used by the theorems -/

/-- A call to the registered, succeeding tool. -/
def alertCall : ToolCall :=
  { tool_id := "c1", tool_name := "get_alerts", tool_kwargs := [] }

/-- A call to the registered tool whose body raises. -/
def forecastCall : ToolCall :=
  { tool_id := "c2", tool_name := "get_forecast", tool_kwargs := [] }

/-- A second failing call, reaching `handle_tool_calls` from a non-empty
    memory. -/
def forecastCall2 : ToolCall :=
  { tool_id := "c9", tool_name := "get_forecast", tool_kwargs := [] }

/-- The `ToolOutput` `get_alerts` produces. -/
def alertOutput : ToolOutput :=
  { tool_name := "get_alerts", content := "No active alerts for this state." }

/-- The assistant message carried by the stub model's stream chunks. -/
def stubResponseMsg : ChatMessage :=
  { role := .assistant, content := "" }

/-- A model stub that ALWAYS returns one tool call (to `get_alerts`),
    regardless of the chat history — the §8 iteration-cap scenario. -/
def stubLLM : List ChatMessage → List ChatResponseChunk :=
  fun _ => [{ delta := "", message := stubResponseMsg, toolCalls := [alertCall] }]

/-- A model stub whose single turn calls the unregistered tool
    `get_radar`. -/
def radarLLM : List ChatMessage → List ChatResponseChunk :=
  fun _ => [{ delta := "", message := stubResponseMsg, toolCalls := [radarCall] }]

/-- Tool session stub for the Anthropic client: every call returns the
    alerts text. -/
def stubCallTool : String → Kwargs → String :=
  fun _ _ => "No active alerts for this state."

/-- Anthropic model stub: the initial response issues one `tool_use`, the
    follow-up response's first content block is ANOTHER `tool_use` (not
    text). -/
def llmBadFollowUp : List AMessage → AResponse := fun ms =>
  if ms.length == 1 then { content := [.toolUse "t1" "get_alerts" []] }
  else { content := [.toolUse "u1" "get_alerts" []] }

/-- Anthropic model stub: one `tool_use` initially, then a plain text
    follow-up — a run that completes. -/
def llmGoodFollowUp : List AMessage → AResponse := fun ms =>
  if ms.length == 1 then { content := [.toolUse "t1" "get_alerts" []] }
  else { content := [.text "done"] }

/-- Anthropic model stub: the initial response issues two `tool_use`
    blocks; the first follow-up response starts with text but ALSO issues
    the tool call `u1`; the second follow-up is plain text.  The branches
    are keyed on the length of the conversation list at each call site
    (1, then 3, then 5 messages). -/
def llmC3 : List AMessage → AResponse := fun ms =>
  if ms.length == 1 then
    { content := [.toolUse "t1" "get_alerts" [], .toolUse "t2" "get_forecast" []] }
  else if ms.length == 3 then
    { content := [.text "ok", .toolUse "u1" "get_alerts" []] }
  else
    { content := [.text "done"] }

/-- Synthesis-model stub for `handle_user_message`. -/
def synthStub : String → String := fun _ => "It is sunny."

/-- One result event streamed during the `llmC3`-style run. -/
def alertsResultEvent : ToolResultEvent :=
  { tool_name := "get_alerts", tool_output := "No active alerts for this state." }

/-- A stream chunk used to exercise `handle_llm_input` on a singleton
    stream: a final text answer, no tool calls. -/
def finalChunk : ChatResponseChunk :=
  { delta := "All clear."
    message := { role := .assistant, content := "All clear." }
    toolCalls := [] }

/-- The tool message `handle_tool_calls` appends for `alertCall`. -/
def alertToolMsg : ChatMessage :=
  { role := .tool, content := "No active alerts for this state."
    tool_call_id := some "c1", name := some "get_alerts" }

/-- The tool message `handle_tool_calls` appends for `forecastCall`. -/
def forecastErrMsg : ChatMessage :=
  { role := .tool, content := "Encountered error in tool call: boom"
    tool_call_id := some "c2", name := some "get_forecast" }

/-- The tool message `handle_tool_calls` appends for `forecastCall2`. -/
def forecastErrMsg2 : ChatMessage :=
  { role := .tool, content := "Encountered error in tool call: boom"
    tool_call_id := some "c9", name := some "get_forecast" }

/-- The outputs of the calls of a batch whose execution succeeds, in batch
    order — the elements `handle_tool_calls` adds to `sources` (error
    results are added to memory only). -/
def successfulOutputs (tools : List Tool) : List ToolCall → List ToolOutput
  | [] => []
  | c :: cs =>
    match toolsByName tools c.tool_name with
    | none => successfulOutputs tools cs
    | some t =>
      match t.run c.tool_kwargs with
      | .ok out => out :: successfulOutputs tools cs
      | .error _ => successfulOutputs tools cs

/-! ## Helper lemmas -/

/-- On success, the tool-loop's message accumulator gains exactly one
    message per call of the batch, whose `tool_call_id` is that call's id,
    in batch order. -/
theorem runToolLoop_ids (tools : List Tool) :
    ∀ (calls : List ToolCall) (tool_msgs : List ChatMessage)
      (sources : List ToolOutput) (m : List ChatMessage) (s : List ToolOutput),
      runToolLoop tools calls tool_msgs sources = .ok (m, s) →
      m.map (fun msg => msg.tool_call_id) =
        tool_msgs.map (fun msg => msg.tool_call_id) ++
          calls.map (fun c => some c.tool_id) := by
  intro calls
  induction calls with
  | nil =>
    intro tool_msgs sources m s h
    simp only [runToolLoop] at h
    cases h
    simp
  | cons c cs ih =>
    intro tool_msgs sources m s h
    simp only [runToolLoop] at h
    split at h
    · exact absurd h (by simp)
    · split at h
      · have := ih _ _ _ _ h
        simp at this
        simp [this]
      · have := ih _ _ _ _ h
        simp at this
        simp [this]

/-- On success, the tool loop extends `sources` by exactly the successful
    outputs of the batch, in batch order. -/
theorem runToolLoop_sources (tools : List Tool) :
    ∀ (calls : List ToolCall) (tool_msgs : List ChatMessage)
      (sources : List ToolOutput) (m : List ChatMessage) (s : List ToolOutput),
      runToolLoop tools calls tool_msgs sources = .ok (m, s) →
      s = sources ++ successfulOutputs tools calls := by
  intro calls
  induction calls with
  | nil =>
    intro tool_msgs sources m s h
    simp only [runToolLoop] at h
    cases h
    simp [successfulOutputs]
  | cons c cs ih =>
    intro tool_msgs sources m s h
    simp only [runToolLoop] at h
    split at h
    · exact absurd h (by simp)
    next tool hfind =>
      split at h
      next out hrun =>
        have := ih _ _ _ _ h
        simp [successfulOutputs, hfind, hrun, this]
      next e hrun =>
        have := ih _ _ _ _ h
        simp [successfulOutputs, hfind, hrun, this]

/-- Folding "keep the latest element" over a list starting from `init`
    yields the list's last element, or `init` when the list is empty. -/
theorem foldl_latest {α : Type} :
    ∀ (l : List α) (init : Option α),
      l.foldl (fun _ c => some c) init = l.getLast?.or init := by
  intro l
  induction l with
  | nil => intro init; rfl
  | cons a t ih =>
    intro init
    rw [List.foldl_cons, ih (some a)]
    cases t with
    | nil => rfl
    | cons b u =>
      rw [List.getLast?_cons_cons]
      cases hlast : (b :: u).getLast? with
      | none => exact absurd (List.getLast?_eq_none_iff.mp hlast) (by simp)
      | some x => rfl

/-- The REPL runner forwards exactly the lines preceding the first
    terminator. -/
theorem replRequests_takeWhile (quits : String → Bool) :
    ∀ lines : List String,
      replRequests quits lines = lines.takeWhile (fun l => !(quits l)) := by
  intro lines
  induction lines with
  | nil => rfl
  | cons l rest ih =>
    simp only [replRequests, List.takeWhile]
    cases h : quits l with
    | true => simp
    | false => simp [ih]

/-- The dispatch log of the Anthropic block loop: it grows only by
    `tool_use` blocks of the INITIAL response's block list (a prefix of
    them, all of them when no exception escapes); tool calls contained in
    follow-up responses are never dispatched. -/
theorem runBlocks_dispatched (llm : List AMessage → AResponse)
    (callTool : String → Kwargs → String) :
    ∀ (blocks : List Block) (s : PQState),
      ∃ t suffix,
        (runBlocks llm callTool blocks s).1.dispatched = s.dispatched ++ t ∧
        toolUses blocks = t ++ suffix ∧
        ((runBlocks llm callTool blocks s).2 = none → suffix = []) := by
  intro blocks
  induction blocks with
  | nil =>
    intro s
    exact ⟨[], [], by simp [runBlocks], by simp [toolUses], fun _ => rfl⟩
  | cons b rest ih =>
    intro s
    cases b with
    | text txt =>
      obtain ⟨t, suffix, h1, h2, h3⟩ :=
        ih { s with final_text := s.final_text ++ [txt]
                    assistant_message_content :=
                      s.assistant_message_content ++ [.text txt] }
      exact ⟨t, suffix, by simpa [runBlocks] using h1,
             by simpa [toolUses] using h2, by simpa [runBlocks] using h3⟩
    | toolUse id name input =>
      have hdisp : (toolUseState callTool id name input s).dispatched =
          s.dispatched ++ [(id, name)] := rfl
      simp only [runBlocks]
      split
      · rename_i t tail heq
        obtain ⟨tl, suffix, h1, h2, h3⟩ :=
          ih { toolUseState callTool id name input s with
               final_text := (toolUseState callTool id name input s).final_text ++ [t] }
        refine ⟨(id, name) :: tl, suffix, ?_, ?_, ?_⟩
        · rw [h1]
          simp [hdisp]
        · simp only [toolUses, List.filterMap] at h2 ⊢
          simp [h2]
        · exact h3
      · rename_i i2 n2 k2 tail heq
        exact ⟨[(id, name)], toolUses rest, by simp [hdisp], by simp [toolUses],
               by simp⟩
      · rename_i heq
        exact ⟨[(id, name)], toolUses rest, by simp [hdisp], by simp [toolUses],
               by simp⟩

/-! ## Claim theorems -/

/-- C1: the claim says a tool call whose name resolves to no registered
    tool yields an error tool message "Tool get_radar does not exist" and
    the loop continues without any exception escaping the orchestrator.
    In the code, `additional_kwargs` dereferences `tool.metadata` BEFORE
    the `if not tool:` test, so the handler instead raises
    `AttributeError`: with the weather registry and the single
    unregistered call `get_radar`, `handle_tool_calls` returns an error
    (appending nothing to memory), and the workflow loop crashes instead
    of continuing to a next model call. -/
theorem C1_unknown_tool_crashes :
    handle_tool_calls weatherTools [radarCall] [] [] =
      .error (.attributeError "'NoneType' object has no attribute 'metadata'") ∧
    runLoop radarLLM weatherTools 2 [] [] =
      .crashed (.attributeError "'NoneType' object has no attribute 'metadata'") :=
  ⟨rfl, rfl⟩

/-- C2 (counterexample): with the §8 stub model that always returns a
    tool call and the example `5` as the configured maximum, the claimed
    `IterationLimitExceeded` after exactly 5 rounds does not happen: a
    sixth round runs to completion — after 6 model calls the run has
    neither finished nor crashed, and `sources` holds 6 entries. -/
theorem C2_no_round_limit_counterexample :
    (runLoop stubLLM weatherTools 6 [] []).isFinished = false ∧
    (runLoop stubLLM weatherTools 6 [] []).isCrashed = false ∧
    (runLoop stubLLM weatherTools 6 [] []).srcList.length = 6 :=
  ⟨rfl, rfl, rfl⟩

/-- C2 (amended): the workflow has no iteration cap and no
    `IterationLimitExceeded` failure.  For EVERY number of rounds, the
    always-tool-calling model stub keeps the loop running: after `fuel`
    model calls the run is still in flight, having appended one
    `get_alerts` result to `sources` per round.  The only configured
    bound in the code is the real-time workflow timeout. -/
theorem C2_loop_unbounded :
    ∀ (fuel : Nat) (memory : List ChatMessage) (sources : List ToolOutput),
      ∃ memory',
        runLoop stubLLM weatherTools fuel memory sources =
          .outOfFuel memory' (sources ++ List.replicate fuel alertOutput) := by
  intro fuel
  induction fuel with
  | zero =>
    intro memory sources
    exact ⟨memory, by simp [runLoop]⟩
  | succ n ih =>
    intro memory sources
    obtain ⟨m', h⟩ := ih ((memory ++ [stubResponseMsg]) ++ [alertToolMsg])
      (sources ++ [alertOutput])
    refine ⟨m', ?_⟩
    have hstep : runLoop stubLLM weatherTools (n + 1) memory sources =
        runLoop stubLLM weatherTools n ((memory ++ [stubResponseMsg]) ++ [alertToolMsg])
          (sources ++ [alertOutput]) := rfl
    rw [hstep, h]
    simp [List.replicate_succ]

/-- C3 (counterexample): in the Anthropic client, a request can COMPLETE
    while a tool call issued by the model goes without any tool result:
    with `llmC3`, whose first follow-up response issues the extra call
    `u1`, `process_query` returns without error, yet `u1` is never
    dispatched and no `tool_result` message with id `u1` is ever appended
    to the conversation, even though the model's response at that point
    (the one for the 3-message history) contains the `u1` `tool_use`
    block. -/
theorem C3_orphan_tool_call_counterexample :
    (process_query llmC3 stubCallTool "What is the weather in NY?").2 = none ∧
    (llmC3 ((process_query llmC3 stubCallTool
        "What is the weather in NY?").1.messages.take 3)).content =
      [Block.text "ok", Block.toolUse "u1" "get_alerts" []] ∧
    ((process_query llmC3 stubCallTool
        "What is the weather in NY?").1.messages.any (isResultFor "u1")) = false ∧
    ((process_query llmC3 stubCallTool
        "What is the weather in NY?").1.dispatched.any (fun p => p.1 == "u1")) = false :=
  ⟨rfl, rfl, rfl, rfl⟩

/-- C3 (amended): in the WORKFLOW variant the claim holds — whenever
    `handle_tool_calls` completes, the memory it hands to the next model
    call extends the previous memory by a block of tool messages in which,
    for every id, the number of tool messages carrying that `tool_call_id`
    equals the number of issued calls with that id: each issued call gets
    exactly one result, none is orphaned or duplicated.  (The Anthropic
    variant violates the claim for follow-up responses, per the
    counterexample.) -/
theorem C3_one_result_per_call :
    ∀ (tools : List Tool) (calls : List ToolCall) (mem : List ChatMessage)
      (src : List ToolOutput) (mem' : List ChatMessage) (src' : List ToolOutput),
      handle_tool_calls tools calls mem src = .ok (mem', src') →
      ∃ msgs, mem' = mem ++ msgs ∧
        ∀ tid : String,
          msgs.countP (fun m => m.tool_call_id == some tid) =
            calls.countP (fun c => c.tool_id == tid) := by
  intro tools calls mem src mem' src' h
  simp only [handle_tool_calls] at h
  split at h
  · exact absurd h (by simp)
  · rename_i tool_msgs sources' heq
    cases h
    refine ⟨tool_msgs, rfl, ?_⟩
    intro tid
    have hm := runToolLoop_ids tools calls [] src _ _ heq
    simp at hm
    calc tool_msgs.countP (fun m => m.tool_call_id == some tid)
        = (tool_msgs.map (fun m => m.tool_call_id)).countP
            (fun x => x == some tid) :=
          (List.countP_map (fun x => x == some tid)
            (fun m : ChatMessage => m.tool_call_id) tool_msgs).symm
      _ = (calls.map (fun c => some c.tool_id)).countP
            (fun x => x == some tid) := by rw [hm]
      _ = calls.countP (fun c => c.tool_id == tid) :=
          List.countP_map (fun x => x == some tid)
            (fun c : ToolCall => some c.tool_id) calls

/-- C3 (witness): the single-call batch `[alertCall]` on the weather
    registry: the appended block is one tool message whose id matches the
    call's id exactly once. -/
theorem C3_one_result_per_call_witness :
    ∃ msgs, ([alertToolMsg] : List ChatMessage) = [] ++ msgs ∧
      ∀ tid : String,
        msgs.countP (fun m => m.tool_call_id == some tid) =
          [alertCall].countP (fun c => c.tool_id == tid) :=
  C3_one_result_per_call weatherTools [alertCall] [] [] [alertToolMsg] [alertOutput] rfl

/-- C4: tool messages reach memory in the emission order of the batch —
    whenever `handle_tool_calls` completes, the new memory is the old one
    followed by one message per call whose `tool_call_id` sequence equals
    the batch's id sequence; the handler returns only after the whole
    batch, so all results precede the next model call.  (Execution is
    sequential in the source, so completion order cannot differ from
    emission order.) -/
theorem C4_results_in_emission_order :
    ∀ (tools : List Tool) (calls : List ToolCall) (mem : List ChatMessage)
      (src : List ToolOutput) (mem' : List ChatMessage) (src' : List ToolOutput),
      handle_tool_calls tools calls mem src = .ok (mem', src') →
      ∃ msgs, mem' = mem ++ msgs ∧
        msgs.map (fun m => m.tool_call_id) = calls.map (fun c => some c.tool_id) := by
  intro tools calls mem src mem' src' h
  simp only [handle_tool_calls] at h
  split at h
  · exact absurd h (by simp)
  · rename_i tool_msgs sources' heq
    cases h
    refine ⟨tool_msgs, rfl, ?_⟩
    have hm := runToolLoop_ids tools calls [] src _ _ heq
    simpa using hm

/-- C4 (witness): the two-call batch succeeding-then-failing keeps ids in
    emission order `c1, c2`. -/
theorem C4_results_in_emission_order_witness :
    ∃ msgs, ([alertToolMsg, forecastErrMsg] : List ChatMessage) = [] ++ msgs ∧
      msgs.map (fun m => m.tool_call_id) =
        [alertCall, forecastCall].map (fun c => some c.tool_id) :=
  C4_results_in_emission_order weatherTools [alertCall, forecastCall] [] []
    [alertToolMsg, forecastErrMsg] [alertOutput] rfl

/-- C5 (counterexample): when the agent's final response text looks like
    a tool-call payload and tool results were streamed, the code does NOT
    fail the request: it issues the follow-up synthesis prompt (flag
    `true`) and returns that completion as a normal answer. -/
theorem C5_synthesis_prompt_counterexample :
    (handle_user_message "\x7b\"tool_calls\": []\x7d" [alertsResultEvent]
      synthStub "What is the weather in NY?").2 = true ∧
    (handle_user_message "\x7b\"tool_calls\": []\x7d" [alertsResultEvent]
      synthStub "What is the weather in NY?").1 = "It is sunny." :=
  ⟨rfl, rfl⟩

/-- C5 (amended): `handle_user_message` never raises a protocol error —
    it always returns a string — and it issues the follow-up synthesis
    prompt exactly when the stripped final response starts with the
    tool-call payload marker AND at least one tool result event was
    streamed; otherwise it returns the response (or a fixed placeholder)
    directly. -/
theorem C5_synthesis_follow_up :
    ∀ (final_response : String) (tool_results : List ToolResultEvent)
      (synth : String → String) (message_content : String),
      (handle_user_message final_response tool_results synth message_content).2 =
        (pyStartsWith (pyStrip final_response) "\x7b\"tool_calls\"" &&
          !tool_results.isEmpty) := by
  intro fr trs synth mc
  simp only [handle_user_message]
  by_cases h : pyStartsWith (pyStrip fr) "\x7b\"tool_calls\""
  · simp only [h, if_true, Bool.true_and]
    cases trs <;> simp
  · simp [h]

/-- C6: a registered tool whose execution raises is contained: the
    handler completes normally, appending to memory one tool message whose
    content is the error summary `Encountered error in tool call: <e>`,
    carrying the call's id and the tool's name, with `sources` unchanged —
    nothing escapes the handler and the loop proceeds to the next model
    call. -/
theorem C6_tool_error_contained :
    ∀ (tools : List Tool) (call : ToolCall) (tool : Tool) (e : PyErr)
      (mem : List ChatMessage) (src : List ToolOutput),
      toolsByName tools call.tool_name = some tool →
      tool.run call.tool_kwargs = .error e →
      handle_tool_calls tools [call] mem src =
        .ok (mem ++ [{ role := .tool
                       content := "Encountered error in tool call: " ++ e.str
                       tool_call_id := some call.tool_id
                       name := some tool.name }], src) := by
  intro tools call tool e mem src hfind hrun
  simp [handle_tool_calls, runToolLoop, hfind, hrun]

/-- C6 (witness): the failing registered tool `get_forecast`. -/
theorem C6_tool_error_contained_witness :
    handle_tool_calls weatherTools [forecastCall] [] [] =
      .ok ([] ++ [{ role := .tool
                    content := "Encountered error in tool call: " ++
                      (PyErr.toolError "boom").str
                    tool_call_id := some forecastCall.tool_id
                    name := some brokenTool.name }], []) :=
  C6_tool_error_contained weatherTools forecastCall brokenTool (.toolError "boom")
    [] [] rfl rfl

/-- C7 (counterexample): a batch producing an error `ToolResult` appends
    it to memory but NOT to `sources`: the failing `get_forecast` call
    leaves `sources` empty while one error tool message is appended,
    refuting "every ToolResult produced in the batch is appended to
    `sources`". -/
theorem C7_error_result_not_in_sources_counterexample :
    handle_tool_calls weatherTools [forecastCall2] [stubResponseMsg] [] =
      .ok ([stubResponseMsg, forecastErrMsg2], []) :=
  rfl

/-- C7 (amended): `sources` receives exactly the SUCCESSFUL outputs of
    each batch, appended in batch order (so it grows monotonically across
    rounds of a request); error results reach memory only.  It is reset
    to `[]` exactly when `prepare_chat_history` starts a new top-level
    user request. -/
theorem C7_sources_successful_and_reset :
    (∀ (stored : Option (List ChatMessage)) (user_input : String),
      (prepare_chat_history stored user_input).2 = []) ∧
    (∀ (tools : List Tool) (calls : List ToolCall) (mem : List ChatMessage)
       (src : List ToolOutput) (mem' : List ChatMessage) (src' : List ToolOutput),
      handle_tool_calls tools calls mem src = .ok (mem', src') →
      src' = src ++ successfulOutputs tools calls) := by
  constructor
  · intro stored user_input
    cases stored <;> rfl
  · intro tools calls mem src mem' src' h
    simp only [handle_tool_calls] at h
    split at h
    · exact absurd h (by simp)
    · rename_i tool_msgs sources' heq
      cases h
      exact runToolLoop_sources tools calls [] src _ _ heq

/-- C7 (witness): a fresh request resets `sources`; the mixed
    failing-then-succeeding batch adds only the successful output. -/
theorem C7_sources_successful_and_reset_witness :
    (prepare_chat_history none "What is the weather in NY?").2 = [] ∧
    ([alertOutput] : List ToolOutput) =
      [] ++ successfulOutputs weatherTools [forecastCall, alertCall] :=
  ⟨C7_sources_successful_and_reset.1 none "What is the weather in NY?",
   C7_sources_successful_and_reset.2 weatherTools [forecastCall, alertCall]
     [] [] [forecastErrMsg, alertToolMsg] [alertOutput] rfl⟩

/-- C8 (counterexample): no REPL accepts BOTH tokens.  The Anthropic
    `chat_loop` forwards the line `exit` as a user request (only `quit`
    terminates it); the workflow `main` and `client_llama` forward
    `quit` (only `exit` terminates them). -/
theorem C8_terminator_counterexample :
    chat_loop_requests ["exit"] = ["exit"] ∧
    workflow_main_requests ["quit"] = ["quit"] ∧
    client_llama_requests ["quit"] = ["quit"] := by
  refine ⟨?_, ?_, ?_⟩ <;> decide

/-- C8 (amended): each variant recognizes exactly one terminator, and
    every line before the first terminator becomes one user request, in
    order: `chat_loop` terminates on a stripped line whose lowercase form
    is `quit`, the workflow `main` on the exact line `exit`, and
    `client_llama` on a line whose lowercase form is `exit`; the
    respective other token is forwarded as an ordinary request. -/
theorem C8_single_terminator_per_variant :
    (∀ lines : List String,
      chat_loop_requests lines =
        (lines.map pyStrip).takeWhile (fun l => !(chatLoopQuits l)) ∧
      workflow_main_requests lines =
        lines.takeWhile (fun l => !(workflowMainQuits l)) ∧
      client_llama_requests lines =
        lines.takeWhile (fun l => !(clientLlamaQuits l))) ∧
    chat_loop_requests ["quit"] = [] ∧
    workflow_main_requests ["exit"] = [] ∧
    client_llama_requests ["EXIT"] = [] := by
  refine ⟨?_, by decide, by decide, by decide⟩
  intro lines
  exact ⟨replRequests_takeWhile _ _, replRequests_takeWhile _ _,
         replRequests_takeWhile _ _⟩

/-- C9: `process_query` dispatches exactly the `tool_use` blocks of the
    model's INITIAL response: the dispatch log is always a prefix of those
    blocks (tool calls inside follow-up responses are never dispatched),
    and equals them when the run completes.  With `llmBadFollowUp`, whose
    follow-up's first content block is a `tool_use` rather than text, the
    unconditional read of `response.content[0].text` raises
    `AttributeError` and the follow-up's call is not dispatched. -/
theorem C9_initial_blocks_only :
    (∀ (llm : List AMessage → AResponse) (callTool : String → Kwargs → String)
       (query : String),
      ∃ suffix,
        toolUses (llm [AMessage.userText query]).content =
          (process_query llm callTool query).1.dispatched ++ suffix ∧
        ((process_query llm callTool query).2 = none → suffix = [])) ∧
    (process_query llmBadFollowUp stubCallTool "What is the weather in NY?").2 =
      some (.attributeError "'ToolUseBlock' object has no attribute 'text'") ∧
    (process_query llmBadFollowUp stubCallTool
      "What is the weather in NY?").1.dispatched = [("t1", "get_alerts")] := by
  refine ⟨?_, rfl, rfl⟩
  intro llm callTool query
  obtain ⟨t, suffix, h1, h2, h3⟩ :=
    runBlocks_dispatched llm callTool (llm [AMessage.userText query]).content
      { final_text := [], assistant_message_content := []
        messages := [AMessage.userText query], dispatched := [] }
  have hd : (process_query llm callTool query).1.dispatched = t := by
    show (runBlocks llm callTool ((llm [AMessage.userText query]).content)
      { final_text := [], assistant_message_content := []
        messages := [AMessage.userText query], dispatched := [] }).1.dispatched = t
    rw [h1]
    simp
  refine ⟨suffix, ?_, ?_⟩
  · rw [hd]
    exact h2
  · intro herr
    exact h3 herr

/-- C9 (witness): a completing run (`llmGoodFollowUp`) dispatches exactly
    the initial response's `tool_use` blocks. -/
theorem C9_initial_blocks_only_witness :
    toolUses (llmGoodFollowUp [AMessage.userText "What is the weather in NY?"]).content =
      (process_query llmGoodFollowUp stubCallTool
        "What is the weather in NY?").1.dispatched ++ [] := by
  obtain ⟨suffix, h1, h2⟩ :=
    C9_initial_blocks_only.1 llmGoodFollowUp stubCallTool "What is the weather in NY?"
  have hs := h2 (by rfl)
  rw [hs] at h1
  exact h1

/-- C10: the model-response handler assumes a non-empty stream.  The loop
    variable holds the LAST streamed chunk (`streamLast` is `getLast?`);
    when some chunk exists the handler completes, committing exactly that
    chunk's message to memory; on an empty stream the variable is never
    bound and the handler fails with `NameError` instead of committing
    anything. -/
theorem C10_stream_commit :
    (∀ stream : List ChatResponseChunk, streamLast stream = stream.getLast?) ∧
    (∀ (stream : List ChatResponseChunk) (mem : List ChatMessage)
       (src : List ToolOutput) (response : ChatResponseChunk),
      streamLast stream = some response →
      ∃ r, handle_llm_input stream mem src = .ok r ∧
           r.memory = mem ++ [response.message]) ∧
    (∀ (mem : List ChatMessage) (src : List ToolOutput),
      handle_llm_input [] mem src = .error (.nameError "response")) := by
  refine ⟨?_, ?_, ?_⟩
  · intro stream
    show stream.foldl (fun _ c => some c) none = stream.getLast?
    rw [foldl_latest]
    cases stream.getLast? <;> rfl
  · intro stream mem src response h
    simp only [handle_llm_input, h]
    by_cases hc : response.toolCalls.isEmpty
    · simp only [hc, if_true]
      exact ⟨_, rfl, rfl⟩
    · simp only [hc, if_false]
      exact ⟨_, rfl, rfl⟩
  · intro mem src
    rfl

/-- C10 (witness): a singleton stream ending in a final text chunk
    commits that chunk's message. -/
theorem C10_stream_commit_witness :
    ∃ r, handle_llm_input [finalChunk] [] [] = .ok r ∧
         r.memory = [] ++ [finalChunk.message] :=
  C10_stream_commit.2.1 [finalChunk] [] [] finalChunk rfl
